import Mathlib

/-!
Shallow embedding of `rllib/core/models/tf/primitives.py`.

The file defines three configuration-driven pipeline builders — `TfMLP`,
`TfCNN` and `TfCNNTranspose` — which each turn a construction-time
configuration into an ordered list of layer descriptors, mirroring the
Python constructors line by line.  The external Keras layer primitives are
represented by the `Layer` inductive (one constructor per primitive, holding
exactly the arguments the source passes), and the external
`ray.rllib.models.utils.get_activation_fn` resolver is modelled from the
specification.  Forward evaluation (`call`) is parameterised by the external
network-application function supplied by the numerical framework; the
builders themselves only decide what tensor is handed to that function.
-/

namespace Primitives

/-- A resolved activation function, the value returned by the activation
resolver for a recognized name. -/
inductive Act where
  | relu
  | tanh
  | sigmoid
  | silu
  | swish
  | elu
  | linear
  deriving DecidableEq, Repr

/-- Tensor element dtypes relevant to the module: the fixed floating
precision the conv stacks cast to, plus representative caller dtypes. -/
inductive DType where
  | float32
  | float64
  | float16
  | int32
  | uint8
  deriving DecidableEq, Repr

/-- Padding policy of a convolution layer; the source always passes
the string "same". -/
inductive Padding where
  | same
  | valid
  deriving DecidableEq, Repr

/-- A kernel or stride specifier: a single int for a square shape or a
width x height pair, passed through to the layer unchanged. -/
inductive SizeSpec where
  | square (n : Nat)
  | rect (w h : Nat)
  deriving DecidableEq, Repr

/-- One entry of `cnn_filter_specifiers` / `cnn_transpose_filter_specifiers`:
`[number of filters, kernel, stride]`. -/
structure ConvSpec where
  num_filters : Nat
  kernel_size : SizeSpec
  strides : SizeSpec
  deriving DecidableEq, Repr

/-- The epsilon the source passes to every LayerNormalization layer
(1e-5, instead of the Keras default 1e-3). -/
def layerNormEpsilon : ℚ := 1 / 100000

/-- A layer descriptor: one constructor per Keras primitive the source
instantiates, holding exactly the arguments the source passes.  An inline
activation of `none` means the Python code passed `activation=None`. -/
inductive Layer where
  | inputLayer (shape : List Int)
  | dense (units : Nat) (activation : Option Act) (use_bias : Bool)
  | conv2d (filters : Nat) (kernel_size : SizeSpec) (strides : SizeSpec)
      (padding : Padding) (use_bias : Bool) (activation : Option Act)
  | conv2dTranspose (filters : Nat) (kernel_size : SizeSpec) (strides : SizeSpec)
      (padding : Padding) (use_bias : Bool) (activation : Option Act)
  | layerNorm (axis : List Int) (epsilon : ℚ)
  | activationLayer (activation : Act)
  deriving DecidableEq, Repr

/-- Configuration errors raised at construction time: the failed `assert`
statements of the constructors, and the unrecognized-activation error of the
activation resolver. -/
inductive ConfigError where
  | assertionFailed
  | unknownActivation
  deriving DecidableEq, Repr

/-- Modelled from the spec: `get_activation_fn` (defined in
`ray.rllib.models.utils`, which is not under `src/`) is the
activation-function resolver mapping a name to an executable elementwise
function, and it fails fast when an unrecognized activation name is
supplied. -/
def get_activation_fn (name : String) : Except ConfigError Act :=
  if name = "relu" then .ok .relu
  else if name = "tanh" then .ok .tanh
  else if name = "sigmoid" then .ok .sigmoid
  else if name = "silu" then .ok .silu
  else if name = "swish" then .ok .swish
  else if name = "elu" then .ok .elu
  else if name = "linear" then .ok .linear
  else .error .unknownActivation

/-! ### TfMLP -/

/-- Constructor arguments of `TfMLP.__init__` (all keyword-only). -/
structure TfMLPConfig where
  input_dim : Int
  hidden_layer_dims : List Nat
  hidden_layer_use_layernorm : Bool := false
  hidden_layer_activation : String := "relu"
  output_dim : Option Nat := none
  output_activation : String := "linear"
  use_bias : Bool := true
  deriving Repr

/-- The hidden-layer loop of `TfMLP.__init__` (lines 63-80): for each hidden
width append a Dense layer whose inline activation is suppressed when layer
normalization is used, and in that case also append a LayerNormalization
(epsilon=1e-5) followed by an Activation layer. -/
def mlpHiddenLayers (hidden_activation : Act) (use_layernorm use_bias : Bool) :
    List Nat → List Layer
  | [] => []
  | w :: rest =>
    Layer.dense w (if use_layernorm then none else some hidden_activation) use_bias ::
      ((if use_layernorm then
          [Layer.layerNorm [-1] layerNormEpsilon,
           Layer.activationLayer hidden_activation]
        else []) ++ mlpHiddenLayers hidden_activation use_layernorm use_bias rest)

/-- The assembled `TfMLP` model: its `self.network` pipeline. -/
structure TfMLP where
  network : List Layer
  deriving DecidableEq, Repr

/-- `TfMLP.__init__`: asserts `input_dim > 0`, appends the input layer,
resolves the hidden activation, runs the hidden-layer loop, and appends the
output Dense layer (with its own resolved inline activation and the shared
bias flag) exactly when `output_dim` is not None. -/
def TfMLP.init (cfg : TfMLPConfig) : Except ConfigError TfMLP :=
  if 0 < cfg.input_dim then
    match get_activation_fn cfg.hidden_layer_activation with
    | .error e => .error e
    | .ok hidden_activation =>
      match cfg.output_dim with
      | none =>
        .ok ⟨Layer.inputLayer [cfg.input_dim] ::
               mlpHiddenLayers hidden_activation cfg.hidden_layer_use_layernorm
                 cfg.use_bias cfg.hidden_layer_dims⟩
      | some od =>
        match get_activation_fn cfg.output_activation with
        | .error e => .error e
        | .ok output_activation =>
          .ok ⟨(Layer.inputLayer [cfg.input_dim] ::
                  mlpHiddenLayers hidden_activation cfg.hidden_layer_use_layernorm
                    cfg.use_bias cfg.hidden_layer_dims) ++
                 [Layer.dense od (some output_activation) cfg.use_bias]⟩
  else .error .assertionFailed

/-! ### TfCNN -/

/-- Constructor arguments of `TfCNN.__init__` (all keyword-only). -/
structure TfCNNConfig where
  input_dims : List Int
  cnn_filter_specifiers : List ConvSpec
  cnn_use_layernorm : Bool := false
  cnn_activation : String := "relu"
  use_bias : Bool := true
  deriving Repr

/-- The conv loop of `TfCNN.__init__` (lines 146-163): for each spec append a
Conv2D layer with padding "same" and the shared bias flag; with layer
normalization the inline activation is suppressed and a LayerNormalization
over the axes [-3, -2, -1] (epsilon=1e-5) plus an Activation layer follow. -/
def cnnLayers (act : Act) (use_layernorm use_bias : Bool) : List ConvSpec → List Layer
  | [] => []
  | s :: rest =>
    Layer.conv2d s.num_filters s.kernel_size s.strides Padding.same use_bias
        (if use_layernorm then none else some act) ::
      ((if use_layernorm then
          [Layer.layerNorm [-3, -2, -1] layerNormEpsilon,
           Layer.activationLayer act]
        else []) ++ cnnLayers act use_layernorm use_bias rest)

/-- The assembled `TfCNN` model: its `self.cnn` pipeline and the
`self.expected_input_dtype` field set at the end of `__init__`. -/
structure TfCNN where
  cnn : List Layer
  expected_input_dtype : DType
  deriving DecidableEq, Repr

/-- `TfCNN.__init__`: asserts `len(input_dims) == 3`, resolves the
activation, appends the input layer and runs the conv loop, and records
`expected_input_dtype = tf.float32`. -/
def TfCNN.init (cfg : TfCNNConfig) : Except ConfigError TfCNN :=
  if cfg.input_dims.length = 3 then
    match get_activation_fn cfg.cnn_activation with
    | .error e => .error e
    | .ok act =>
      .ok ⟨Layer.inputLayer cfg.input_dims ::
             cnnLayers act cfg.cnn_use_layernorm cfg.use_bias
               cfg.cnn_filter_specifiers,
           DType.float32⟩
  else .error .assertionFailed

/-! ### TfCNNTranspose -/

/-- Constructor arguments of `TfCNNTranspose.__init__` (all keyword-only). -/
structure TfCNNTransposeConfig where
  input_dims : List Int
  cnn_transpose_filter_specifiers : List ConvSpec
  cnn_transpose_activation : String := "relu"
  cnn_transpose_use_layernorm : Bool := false
  use_bias : Bool := true
  deriving Repr

/-- The conv-transpose loop of `TfCNNTranspose.__init__` (lines 230-257),
with `n` the total number of specs and `i` the running index of
`enumerate`: `is_final_layer = (i == n - 1)`; the layer activation is
suppressed when layer normalization is used or the layer is final; the
layer bias is `use_bias or is_final_layer`; the
LayerNormalization/Activation pair is appended only when layer
normalization is used and the layer is not final. -/
def cnnTransposeLayers (act : Act) (use_layernorm use_bias : Bool) (n : Nat) :
    Nat → List ConvSpec → List Layer
  | _, [] => []
  | i, s :: rest =>
    let is_final_layer := i == n - 1
    Layer.conv2dTranspose s.num_filters s.kernel_size s.strides Padding.same
        (use_bias || is_final_layer)
        (if use_layernorm || is_final_layer then none else some act) ::
      ((if use_layernorm && !is_final_layer then
          [Layer.layerNorm [-3, -2, -1] layerNormEpsilon,
           Layer.activationLayer act]
        else []) ++ cnnTransposeLayers act use_layernorm use_bias n (i + 1) rest)

/-- The assembled `TfCNNTranspose` model: its `self.cnn_transpose` pipeline
and the `self.expected_input_dtype` field set at the end of `__init__`. -/
structure TfCNNTranspose where
  cnn_transpose : List Layer
  expected_input_dtype : DType
  deriving DecidableEq, Repr

/-- `TfCNNTranspose.__init__`: asserts `len(input_dims) == 3`, resolves the
activation, appends the input layer, runs the enumerated conv-transpose
loop starting at index 0, and records `expected_input_dtype = tf.float32`. -/
def TfCNNTranspose.init (cfg : TfCNNTransposeConfig) :
    Except ConfigError TfCNNTranspose :=
  if cfg.input_dims.length = 3 then
    match get_activation_fn cfg.cnn_transpose_activation with
    | .error e => .error e
    | .ok act =>
      .ok ⟨Layer.inputLayer cfg.input_dims ::
             cnnTransposeLayers act cfg.cnn_transpose_use_layernorm cfg.use_bias
               cfg.cnn_transpose_filter_specifiers.length 0
               cfg.cnn_transpose_filter_specifiers,
           DType.float32⟩
  else .error .assertionFailed

/-! ### Forward evaluation -/

/-- A tensor as far as this module observes it: its dtype and shape.  All
numerics are delegated to the external framework. -/
structure Tensor where
  dtype : DType
  shape : List Nat
  deriving DecidableEq, Repr

/-- `tf.cast`: re-types a tensor to the given dtype. -/
def tf_cast (t : Tensor) (d : DType) : Tensor := { t with dtype := d }

/-- `TfMLP.call` (lines 94-95): `return self.network(inputs)`.  The external
Keras Sequential application is the parameter `network_apply`; the inputs
are handed over exactly as supplied. -/
def TfMLP.call (network_apply : List Layer → Tensor → Tensor) (m : TfMLP)
    (inputs : Tensor) : Tensor :=
  network_apply m.network inputs

/-- `TfCNN.call` (lines 170-171):
`return self.cnn(tf.cast(inputs, self.expected_input_dtype))`. -/
def TfCNN.call (network_apply : List Layer → Tensor → Tensor) (m : TfCNN)
    (inputs : Tensor) : Tensor :=
  network_apply m.cnn (tf_cast inputs m.expected_input_dtype)

/-- `TfCNNTranspose.call` (lines 264-265):
`return self.cnn_transpose(tf.cast(inputs, self.expected_input_dtype))`. -/
def TfCNNTranspose.call (network_apply : List Layer → Tensor → Tensor)
    (m : TfCNNTranspose) (inputs : Tensor) : Tensor :=
  network_apply m.cnn_transpose (tf_cast inputs m.expected_input_dtype)

/-! ### Observations on pipelines -/

/-- Whether a layer descriptor is a LayerNormalization step. -/
def isLayerNorm : Layer → Bool
  | .layerNorm _ _ => true
  | _ => false

/-- Whether a layer descriptor is a Dense (linear) layer. -/
def isDense : Layer → Bool
  | .dense _ _ _ => true
  | _ => false

/-- Whether a layer descriptor is an explicit Activation step. -/
def isActivationLayer : Layer → Bool
  | .activationLayer _ => true
  | _ => false

/-- Number of LayerNormalization steps in a pipeline. -/
def countNorm (layers : List Layer) : Nat := (layers.filter isLayerNorm).length

/-- Number of Dense (linear) layers in a pipeline. -/
def countDense (layers : List Layer) : Nat := (layers.filter isDense).length

/-- Number of explicit Activation steps in a pipeline. -/
def countAct (layers : List Layer) : Nat :=
  (layers.filter isActivationLayer).length

/-- The Dense layers of a pipeline, in order. -/
def denseLayers (layers : List Layer) : List Layer := layers.filter isDense

/-- The bias flags of the Conv2DTranspose layers of a pipeline, in order. -/
def convTransposeBiases (layers : List Layer) : List Bool :=
  layers.filterMap fun l =>
    match l with
    | .conv2dTranspose _ _ _ _ b _ => some b
    | _ => none

/-! ### Structural lemmas -/

theorem countNorm_append (l₁ l₂ : List Layer) :
    countNorm (l₁ ++ l₂) = countNorm l₁ + countNorm l₂ := by
  simp [countNorm, List.filter_append]

theorem countDense_append (l₁ l₂ : List Layer) :
    countDense (l₁ ++ l₂) = countDense l₁ + countDense l₂ := by
  simp [countDense, List.filter_append]

theorem mlpHiddenLayers_layernorm (a : Act) (b : Bool) (ws : List Nat) :
    mlpHiddenLayers a true b ws =
      (ws.map fun w =>
        [Layer.dense w none b, Layer.layerNorm [-1] layerNormEpsilon,
         Layer.activationLayer a]).flatten := by
  induction ws with
  | nil => rfl
  | cons w rest ih => simp [mlpHiddenLayers, ih]

theorem countNorm_mlpHiddenLayers (a : Act) (ln b : Bool) (ws : List Nat) :
    countNorm (mlpHiddenLayers a ln b ws) = if ln then ws.length else 0 := by
  induction ws with
  | nil => cases ln <;> rfl
  | cons w rest ih =>
    cases ln <;>
      simp only [mlpHiddenLayers, countNorm, if_true, if_false, Bool.false_eq_true,
        List.filter_append, List.filter_cons, List.filter_nil, isLayerNorm,
        List.length_append, List.length_cons, List.length_nil, List.nil_append] at ih ⊢ <;>
      omega

theorem countDense_mlpHiddenLayers (a : Act) (ln b : Bool) (ws : List Nat) :
    countDense (mlpHiddenLayers a ln b ws) = ws.length := by
  induction ws with
  | nil => rfl
  | cons w rest ih =>
    cases ln <;>
      simp only [mlpHiddenLayers, countDense, if_true, if_false, Bool.false_eq_true,
        List.filter_append, List.filter_cons, List.filter_nil, isDense,
        List.length_append, List.length_cons, List.length_nil, List.nil_append] at ih ⊢ <;>
      omega

theorem dense_mem_mlpHiddenLayers {a : Act} {ln b : Bool} {ws : List Nat}
    {w : Nat} {oa : Option Act} {bb : Bool}
    (h : Layer.dense w oa bb ∈ mlpHiddenLayers a ln b ws) : bb = b := by
  induction ws with
  | nil => simp [mlpHiddenLayers] at h
  | cons w0 rest ih =>
    simp only [mlpHiddenLayers, List.mem_cons, List.mem_append] at h
    rcases h with h | h | h
    · cases h
      rfl
    · cases ln <;> simp at h
    · exact ih h

theorem TfMLP_init_ok {cfg : TfMLPConfig} {m : TfMLP}
    (h : TfMLP.init cfg = .ok m) :
    0 < cfg.input_dim ∧
      ∃ hact, get_activation_fn cfg.hidden_layer_activation = .ok hact ∧
        ((cfg.output_dim = none ∧
            m.network =
              Layer.inputLayer [cfg.input_dim] ::
                mlpHiddenLayers hact cfg.hidden_layer_use_layernorm cfg.use_bias
                  cfg.hidden_layer_dims) ∨
          ∃ od oact, cfg.output_dim = some od ∧
            get_activation_fn cfg.output_activation = .ok oact ∧
            m.network =
              (Layer.inputLayer [cfg.input_dim] ::
                  mlpHiddenLayers hact cfg.hidden_layer_use_layernorm cfg.use_bias
                    cfg.hidden_layer_dims) ++
                [Layer.dense od (some oact) cfg.use_bias]) := by
  unfold TfMLP.init at h
  split at h
  · split at h
    · exact absurd h (by simp)
    · rename_i hact heq
      split at h
      · rename_i hout
        refine ⟨by assumption, hact, heq, Or.inl ⟨hout, ?_⟩⟩
        cases h
        rfl
      · rename_i od hout
        split at h
        · exact absurd h (by simp)
        · rename_i oact heq2
          refine ⟨by assumption, hact, heq, Or.inr ⟨od, oact, hout, heq2, ?_⟩⟩
          cases h
          rfl
  · exact absurd h (by simp)

theorem cnnLayers_eq_flatten (a : Act) (ln b : Bool) (l : List ConvSpec) :
    cnnLayers a ln b l =
      (l.map fun s =>
        Layer.conv2d s.num_filters s.kernel_size s.strides Padding.same b
            (if ln then none else some a) ::
          (if ln then
            [Layer.layerNorm [-3, -2, -1] layerNormEpsilon,
             Layer.activationLayer a]
          else [])).flatten := by
  induction l with
  | nil => rfl
  | cons s rest ih => simp [cnnLayers, ih]

theorem TfCNN_init_ok {cfg : TfCNNConfig} {m : TfCNN}
    (h : TfCNN.init cfg = .ok m) :
    cfg.input_dims.length = 3 ∧
      ∃ act, get_activation_fn cfg.cnn_activation = .ok act ∧
        m.cnn =
          Layer.inputLayer cfg.input_dims ::
            cnnLayers act cfg.cnn_use_layernorm cfg.use_bias
              cfg.cnn_filter_specifiers ∧
        m.expected_input_dtype = DType.float32 := by
  unfold TfCNN.init at h
  split at h
  · split at h
    · exact absurd h (by simp)
    · rename_i act heq
      cases h
      exact ⟨by assumption, act, heq, rfl, rfl⟩
  · exact absurd h (by simp)

theorem TfCNNTranspose_init_ok {cfg : TfCNNTransposeConfig} {m : TfCNNTranspose}
    (h : TfCNNTranspose.init cfg = .ok m) :
    cfg.input_dims.length = 3 ∧
      ∃ act, get_activation_fn cfg.cnn_transpose_activation = .ok act ∧
        m.cnn_transpose =
          Layer.inputLayer cfg.input_dims ::
            cnnTransposeLayers act cfg.cnn_transpose_use_layernorm cfg.use_bias
              cfg.cnn_transpose_filter_specifiers.length 0
              cfg.cnn_transpose_filter_specifiers ∧
        m.expected_input_dtype = DType.float32 := by
  unfold TfCNNTranspose.init at h
  split at h
  · split at h
    · exact absurd h (by simp)
    · rename_i act heq
      cases h
      exact ⟨by assumption, act, heq, rfl, rfl⟩
  · exact absurd h (by simp)

theorem cnnTransposeLayers_getLast (a : Act) (ln b : Bool) (n : Nat)
    (l : List ConvSpec) :
    ∀ i : Nat, l ≠ [] → i + l.length = n →
      ∃ s, l.getLast? = some s ∧
        (cnnTransposeLayers a ln b n i l).getLast? =
          some (Layer.conv2dTranspose s.num_filters s.kernel_size s.strides
            Padding.same true none) := by
  induction l with
  | nil => intro i hne _; exact absurd rfl hne
  | cons s rest ih =>
    intro i _ hn
    cases rest with
    | nil =>
      have hi : (i == n - 1) = true := by
        simp only [List.length_cons, List.length_nil] at hn
        have : i = n - 1 := by omega
        simp [this]
      refine ⟨s, rfl, ?_⟩
      simp [cnnTransposeLayers, hi]
    | cons s2 rest2 =>
      obtain ⟨t, ht, hlast⟩ := ih (i + 1) (by simp)
        (by simp only [List.length_cons] at hn ⊢; omega)
      refine ⟨t, by simpa using ht, ?_⟩
      simp only [cnnTransposeLayers] at hlast ⊢
      cases hc : (ln && !(i == n - 1)) <;>
        simp only [hc, Bool.false_eq_true, if_false, if_true, List.nil_append,
          List.cons_append, List.getLast?_cons_cons] <;>
        exact hlast

theorem convTransposeBiases_append (l₁ l₂ : List Layer) :
    convTransposeBiases (l₁ ++ l₂) =
      convTransposeBiases l₁ ++ convTransposeBiases l₂ := by
  simp [convTransposeBiases, List.filterMap_append]

theorem convTransposeBiases_cnnTransposeLayers (a : Act) (ln b : Bool) (n : Nat)
    (l : List ConvSpec) :
    ∀ i : Nat,
      convTransposeBiases (cnnTransposeLayers a ln b n i l) =
        (List.range l.length).map fun j => b || ((i + j) == n - 1) := by
  induction l with
  | nil => intro i; rfl
  | cons s rest ih =>
    intro i
    have hfun : ((fun j => b || i + j == n - 1) ∘ Nat.succ) =
        fun j => b || (i + 1 + j) == n - 1 := by
      funext j
      have hj : i + (j + 1) = i + 1 + j := by omega
      simp [Function.comp, Nat.succ_eq_add_one, hj]
    simp only [cnnTransposeLayers, convTransposeBiases, List.filterMap_cons,
      List.filterMap_append, List.length_cons, List.range_succ_eq_map,
      List.map_cons, List.map_map]
    rw [show (cnnTransposeLayers a ln b n (i + 1) rest).filterMap _ =
        convTransposeBiases (cnnTransposeLayers a ln b n (i + 1) rest) from rfl,
      ih (i + 1), hfun]
    cases hc : (ln && !(i == n - 1)) <;> simp [hc]

theorem getLast?_cons_of_ne_nil {α : Type} (x : α) {l : List α} (h : l ≠ []) :
    (x :: l).getLast? = l.getLast? := by
  cases l with
  | nil => exact absurd rfl h
  | cons y ys => exact List.getLast?_cons_cons

theorem cnnTransposeLayers_ne_nil (a : Act) (ln b : Bool) (n i : Nat)
    {l : List ConvSpec} (h : l ≠ []) :
    cnnTransposeLayers a ln b n i l ≠ [] := by
  cases l with
  | nil => exact absurd rfl h
  | cons s rest => simp [cnnTransposeLayers]

/-! ### Claims -/

/-- C1: in every `TfCNNTranspose` with a non-empty spec list, the layer built
for the last spec (final by position) has inline activation `None` whatever
the configured activation and the normalization flag are, and it is the very
last element of the pipeline, so no normalization step and no explicit
activation step follow it even when normalization is enabled. -/
theorem C1_convTranspose_final_layer_unactivated
    (cfg : TfCNNTransposeConfig) (m : TfCNNTranspose)
    (hne : cfg.cnn_transpose_filter_specifiers ≠ [])
    (h : TfCNNTranspose.init cfg = .ok m) :
    ∃ s, cfg.cnn_transpose_filter_specifiers.getLast? = some s ∧
      m.cnn_transpose.getLast? =
        some (Layer.conv2dTranspose s.num_filters s.kernel_size s.strides
          Padding.same true none) := by
  obtain ⟨hlen, act, hres, hnet, hdt⟩ := TfCNNTranspose_init_ok h
  obtain ⟨s, hs, hlast⟩ := cnnTransposeLayers_getLast act
    cfg.cnn_transpose_use_layernorm cfg.use_bias
    cfg.cnn_transpose_filter_specifiers.length
    cfg.cnn_transpose_filter_specifiers 0 hne (by omega)
  refine ⟨s, hs, ?_⟩
  rw [hnet, getLast?_cons_of_ne_nil _ (cnnTransposeLayers_ne_nil _ _ _ _ _ hne)]
  exact hlast

/-- Witness for C1 at a concrete two-spec configuration with
normalization enabled and the global bias flag off. -/
theorem C1_witness :
    ∃ s, (TfCNNTransposeConfig.mk [4, 4, 8]
        [⟨16, .square 3, .square 2⟩, ⟨3, .square 4, .square 2⟩]
        "relu" true false).cnn_transpose_filter_specifiers.getLast? = some s ∧
      (TfCNNTranspose.mk
        [Layer.inputLayer [4, 4, 8],
         Layer.conv2dTranspose 16 (.square 3) (.square 2) Padding.same false none,
         Layer.layerNorm [-3, -2, -1] layerNormEpsilon,
         Layer.activationLayer Act.relu,
         Layer.conv2dTranspose 3 (.square 4) (.square 2) Padding.same true none]
        DType.float32).cnn_transpose.getLast? =
        some (Layer.conv2dTranspose s.num_filters s.kernel_size s.strides
          Padding.same true none) :=
  C1_convTranspose_final_layer_unactivated _ _ (by decide) (by rfl)

/-- C2: in every `TfCNNTranspose`, the list of bias flags of the transposed
convolution layers is `use_bias || (index == n - 1)`: the final layer has
bias `true` even when the global flag is `false`, and every non-final layer
carries exactly the global flag. -/
theorem C2_convTranspose_bias_flags
    (cfg : TfCNNTransposeConfig) (m : TfCNNTranspose)
    (h : TfCNNTranspose.init cfg = .ok m) :
    convTransposeBiases m.cnn_transpose =
      (List.range cfg.cnn_transpose_filter_specifiers.length).map
        (fun j => cfg.use_bias ||
          (j == cfg.cnn_transpose_filter_specifiers.length - 1)) ∧
    (cfg.cnn_transpose_filter_specifiers ≠ [] →
      (convTransposeBiases m.cnn_transpose).getLast? = some true) ∧
    (∀ j, j + 1 < cfg.cnn_transpose_filter_specifiers.length →
      (convTransposeBiases m.cnn_transpose)[j]? = some cfg.use_bias) := by
  obtain ⟨hlen, act, hres, hnet, hdt⟩ := TfCNNTranspose_init_ok h
  have hmain : convTransposeBiases m.cnn_transpose =
      (List.range cfg.cnn_transpose_filter_specifiers.length).map
        (fun j => cfg.use_bias ||
          (j == cfg.cnn_transpose_filter_specifiers.length - 1)) := by
    rw [hnet]
    rw [show convTransposeBiases (Layer.inputLayer cfg.input_dims ::
        cnnTransposeLayers act cfg.cnn_transpose_use_layernorm cfg.use_bias
          cfg.cnn_transpose_filter_specifiers.length 0
          cfg.cnn_transpose_filter_specifiers) =
      convTransposeBiases (cnnTransposeLayers act
        cfg.cnn_transpose_use_layernorm cfg.use_bias
        cfg.cnn_transpose_filter_specifiers.length 0
        cfg.cnn_transpose_filter_specifiers) from rfl]
    rw [convTransposeBiases_cnnTransposeLayers]
    simp
  refine ⟨hmain, ?_, ?_⟩
  · intro hne
    rw [hmain]
    cases hl : cfg.cnn_transpose_filter_specifiers with
    | nil => exact absurd hl hne
    | cons s rest =>
      simp only [List.length_cons, List.range_succ, List.map_append,
        List.map_cons, List.map_nil, List.getLast?_concat]
      simp
  · intro j hj
    rw [hmain]
    have hjne : (j == cfg.cnn_transpose_filter_specifiers.length - 1) = false := by
      have : j ≠ cfg.cnn_transpose_filter_specifiers.length - 1 := by omega
      simp [this]
    simp [List.getElem?_map, List.getElem?_range (by omega : j <
      cfg.cnn_transpose_filter_specifiers.length), hjne]

/-- Witness for C2 at a concrete two-spec configuration with the global
bias flag off. -/
theorem C2_witness :
    convTransposeBiases (TfCNNTranspose.mk
        [Layer.inputLayer [4, 4, 8],
         Layer.conv2dTranspose 16 (.square 3) (.square 2) Padding.same false none,
         Layer.layerNorm [-3, -2, -1] layerNormEpsilon,
         Layer.activationLayer Act.relu,
         Layer.conv2dTranspose 3 (.square 4) (.square 2) Padding.same true none]
        DType.float32).cnn_transpose =
      (List.range (TfCNNTransposeConfig.mk [4, 4, 8]
        [⟨16, .square 3, .square 2⟩, ⟨3, .square 4, .square 2⟩]
        "relu" true false).cnn_transpose_filter_specifiers.length).map
        (fun j => (TfCNNTransposeConfig.mk [4, 4, 8]
          [⟨16, .square 3, .square 2⟩, ⟨3, .square 4, .square 2⟩]
          "relu" true false).use_bias ||
          (j == (TfCNNTransposeConfig.mk [4, 4, 8]
            [⟨16, .square 3, .square 2⟩, ⟨3, .square 4, .square 2⟩]
            "relu" true false).cnn_transpose_filter_specifiers.length - 1)) ∧
    ((TfCNNTransposeConfig.mk [4, 4, 8]
        [⟨16, .square 3, .square 2⟩, ⟨3, .square 4, .square 2⟩]
        "relu" true false).cnn_transpose_filter_specifiers ≠ [] →
      (convTransposeBiases (TfCNNTranspose.mk
        [Layer.inputLayer [4, 4, 8],
         Layer.conv2dTranspose 16 (.square 3) (.square 2) Padding.same false none,
         Layer.layerNorm [-3, -2, -1] layerNormEpsilon,
         Layer.activationLayer Act.relu,
         Layer.conv2dTranspose 3 (.square 4) (.square 2) Padding.same true none]
        DType.float32).cnn_transpose).getLast? = some true) ∧
    (∀ j, j + 1 < (TfCNNTransposeConfig.mk [4, 4, 8]
        [⟨16, .square 3, .square 2⟩, ⟨3, .square 4, .square 2⟩]
        "relu" true false).cnn_transpose_filter_specifiers.length →
      (convTransposeBiases (TfCNNTranspose.mk
        [Layer.inputLayer [4, 4, 8],
         Layer.conv2dTranspose 16 (.square 3) (.square 2) Padding.same false none,
         Layer.layerNorm [-3, -2, -1] layerNormEpsilon,
         Layer.activationLayer Act.relu,
         Layer.conv2dTranspose 3 (.square 4) (.square 2) Padding.same true none]
        DType.float32).cnn_transpose)[j]? =
        some (TfCNNTransposeConfig.mk [4, 4, 8]
          [⟨16, .square 3, .square 2⟩, ⟨3, .square 4, .square 2⟩]
          "relu" true false).use_bias) :=
  C2_convTranspose_bias_flags _ _ (by rfl)

/-- C3: in every `TfMLP` with layer normalization enabled, each hidden width
`w` contributes, in order, a Dense layer of size `w` with no inline
activation, a feature-wise LayerNormalization with epsilon 1e-5, and an
explicit Activation step with the hidden activation; the remaining tail of
the pipeline (the optional output layer) holds no normalization step, so the
number of normalization steps equals the number of hidden layers. -/
theorem C3_mlp_layernorm_blocks (cfg : TfMLPConfig) (m : TfMLP)
    (hln : cfg.hidden_layer_use_layernorm = true)
    (h : TfMLP.init cfg = .ok m) :
    ∃ hact tail,
      get_activation_fn cfg.hidden_layer_activation = .ok hact ∧
      m.network =
        Layer.inputLayer [cfg.input_dim] ::
          ((cfg.hidden_layer_dims.map fun w =>
            [Layer.dense w none cfg.use_bias,
             Layer.layerNorm [-1] layerNormEpsilon,
             Layer.activationLayer hact]).flatten ++ tail) ∧
      countNorm tail = 0 ∧
      countNorm m.network = cfg.hidden_layer_dims.length := by
  obtain ⟨hpos, hact, hres, hcase⟩ := TfMLP_init_ok h
  have hcount : countNorm (mlpHiddenLayers hact cfg.hidden_layer_use_layernorm
      cfg.use_bias cfg.hidden_layer_dims) = cfg.hidden_layer_dims.length := by
    rw [countNorm_mlpHiddenLayers, hln, if_pos rfl]
  rcases hcase with ⟨hout, hnet⟩ | ⟨od, oact, hout, hres2, hnet⟩
  · refine ⟨hact, [], hres, ?_, rfl, ?_⟩
    · rw [hnet, hln, mlpHiddenLayers_layernorm, List.append_nil]
    · rw [hnet]
      simpa [countNorm, List.filter_cons, isLayerNorm] using hcount
  · refine ⟨hact, [Layer.dense od (some oact) cfg.use_bias], hres, ?_, rfl, ?_⟩
    · rw [hnet, hln, mlpHiddenLayers_layernorm]
      simp
    · rw [hnet, countNorm_append]
      have h1 : countNorm [Layer.dense od (some oact) cfg.use_bias] = 0 := rfl
      rw [h1]
      simpa [countNorm, List.filter_cons, isLayerNorm] using hcount

/-- Witness for C3 at the concrete configuration of the spec scenario:
input 4, hidden [8, 8], output 2, normalization on. -/
theorem C3_witness :
    (TfMLPConfig.mk 4 [8, 8] true "relu" (some 2) "linear" true
      ).hidden_layer_use_layernorm = true ∧
    ∃ hact tail,
      get_activation_fn (TfMLPConfig.mk 4 [8, 8] true "relu" (some 2) "linear"
        true).hidden_layer_activation = .ok hact ∧
      (TfMLP.mk
        [Layer.inputLayer [4],
         Layer.dense 8 none true,
         Layer.layerNorm [-1] layerNormEpsilon,
         Layer.activationLayer Act.relu,
         Layer.dense 8 none true,
         Layer.layerNorm [-1] layerNormEpsilon,
         Layer.activationLayer Act.relu,
         Layer.dense 2 (some Act.linear) true]).network =
        Layer.inputLayer
            [(TfMLPConfig.mk 4 [8, 8] true "relu" (some 2) "linear" true
              ).input_dim] ::
          (((TfMLPConfig.mk 4 [8, 8] true "relu" (some 2) "linear" true
            ).hidden_layer_dims.map fun w =>
            [Layer.dense w none true,
             Layer.layerNorm [-1] layerNormEpsilon,
             Layer.activationLayer hact]).flatten ++ tail) ∧
      countNorm tail = 0 ∧
      countNorm (TfMLP.mk
        [Layer.inputLayer [4],
         Layer.dense 8 none true,
         Layer.layerNorm [-1] layerNormEpsilon,
         Layer.activationLayer Act.relu,
         Layer.dense 8 none true,
         Layer.layerNorm [-1] layerNormEpsilon,
         Layer.activationLayer Act.relu,
         Layer.dense 2 (some Act.linear) true]).network =
        (TfMLPConfig.mk 4 [8, 8] true "relu" (some 2) "linear" true
          ).hidden_layer_dims.length :=
  ⟨rfl, C3_mlp_layernorm_blocks _ _ rfl (by rfl)⟩

/-- C4: in every `TfMLP`, a Dense output layer of size `output_dim` with its
own inline output activation is appended exactly when `output_dim` is not
None (so the Dense count is the hidden count plus one in that case), that
output layer is the last pipeline element (hence never followed by a
normalization step), and every Dense layer of the pipeline carries the
shared bias flag. -/
theorem C4_mlp_output_layer (cfg : TfMLPConfig) (m : TfMLP)
    (h : TfMLP.init cfg = .ok m) :
    countDense m.network =
      cfg.hidden_layer_dims.length +
        (match cfg.output_dim with | none => 0 | some _ => 1) ∧
    (∀ od, cfg.output_dim = some od →
      ∃ oact, get_activation_fn cfg.output_activation = .ok oact ∧
        m.network.getLast? =
          some (Layer.dense od (some oact) cfg.use_bias)) ∧
    (∀ w oa bb, Layer.dense w oa bb ∈ m.network → bb = cfg.use_bias) := by
  obtain ⟨hpos, hact, hres, hcase⟩ := TfMLP_init_ok h
  rcases hcase with ⟨hout, hnet⟩ | ⟨od, oact, hout, hres2, hnet⟩
  · refine ⟨?_, ?_, ?_⟩
    · rw [hnet, hout]
      simpa [countDense, List.filter_cons, isDense] using
        countDense_mlpHiddenLayers hact cfg.hidden_layer_use_layernorm
          cfg.use_bias cfg.hidden_layer_dims
    · intro od hod
      rw [hout] at hod
      exact absurd hod (by simp)
    · intro w oa bb hmem
      rw [hnet] at hmem
      rcases List.mem_cons.mp hmem with hmem | hmem
      · exact absurd hmem (by simp)
      · exact dense_mem_mlpHiddenLayers hmem
  · refine ⟨?_, ?_, ?_⟩
    · rw [hnet, hout, countDense_append]
      have h1 : countDense [Layer.dense od (some oact) cfg.use_bias] = 1 := rfl
      rw [h1]
      simp only [Nat.add_left_cancel_iff]
      simpa [countDense, List.filter_cons, isDense] using
        countDense_mlpHiddenLayers hact cfg.hidden_layer_use_layernorm
          cfg.use_bias cfg.hidden_layer_dims
    · intro od2 hod
      rw [hout] at hod
      injection hod with hod
      subst hod
      exact ⟨oact, hres2, by rw [hnet, List.getLast?_concat]⟩
    · intro w oa bb hmem
      rw [hnet] at hmem
      rcases List.mem_append.mp hmem with hmem | hmem
      · rcases List.mem_cons.mp hmem with hmem | hmem
        · exact absurd hmem (by simp)
        · exact dense_mem_mlpHiddenLayers hmem
      · rcases List.mem_cons.mp hmem with hmem | hmem
        · cases hmem
          rfl
        · exact absurd hmem (by simp)

/-- Witness for C4 at input 4, hidden [8, 8], output 2, normalization on. -/
theorem C4_witness :
    countDense (TfMLP.mk
        [Layer.inputLayer [4],
         Layer.dense 8 none true,
         Layer.layerNorm [-1] layerNormEpsilon,
         Layer.activationLayer Act.relu,
         Layer.dense 8 none true,
         Layer.layerNorm [-1] layerNormEpsilon,
         Layer.activationLayer Act.relu,
         Layer.dense 2 (some Act.linear) true]).network =
      (TfMLPConfig.mk 4 [8, 8] true "relu" (some 2) "linear" true
        ).hidden_layer_dims.length +
        (match (TfMLPConfig.mk 4 [8, 8] true "relu" (some 2) "linear" true
          ).output_dim with | none => 0 | some _ => 1) ∧
    (∀ od, (TfMLPConfig.mk 4 [8, 8] true "relu" (some 2) "linear" true
        ).output_dim = some od →
      ∃ oact, get_activation_fn (TfMLPConfig.mk 4 [8, 8] true "relu" (some 2)
          "linear" true).output_activation = .ok oact ∧
        (TfMLP.mk
          [Layer.inputLayer [4],
           Layer.dense 8 none true,
           Layer.layerNorm [-1] layerNormEpsilon,
           Layer.activationLayer Act.relu,
           Layer.dense 8 none true,
           Layer.layerNorm [-1] layerNormEpsilon,
           Layer.activationLayer Act.relu,
           Layer.dense 2 (some Act.linear) true]).network.getLast? =
          some (Layer.dense od (some oact) true)) ∧
    (∀ w oa bb, Layer.dense w oa bb ∈ (TfMLP.mk
        [Layer.inputLayer [4],
         Layer.dense 8 none true,
         Layer.layerNorm [-1] layerNormEpsilon,
         Layer.activationLayer Act.relu,
         Layer.dense 8 none true,
         Layer.layerNorm [-1] layerNormEpsilon,
         Layer.activationLayer Act.relu,
         Layer.dense 2 (some Act.linear) true]).network → bb = true) :=
  C4_mlp_output_layer (TfMLPConfig.mk 4 [8, 8] true "relu" (some 2) "linear"
    true) _ (by rfl)

/-- C5: in every `TfCNN`, the pipeline is the input layer followed, for each
spec in order, by one Conv2D layer with padding "same" and the global bias
flag, whose inline activation is suppressed exactly when normalization is
enabled, in which case a LayerNormalization over the three trailing axes
with epsilon 1e-5 and an explicit Activation step follow it; with
normalization disabled the activation is inline and no extra steps are
added. -/
theorem C5_cnn_structure (cfg : TfCNNConfig) (m : TfCNN)
    (h : TfCNN.init cfg = .ok m) :
    ∃ act, get_activation_fn cfg.cnn_activation = .ok act ∧
      m.cnn =
        Layer.inputLayer cfg.input_dims ::
          (cfg.cnn_filter_specifiers.map fun s =>
            Layer.conv2d s.num_filters s.kernel_size s.strides Padding.same
                cfg.use_bias
                (if cfg.cnn_use_layernorm then none else some act) ::
              (if cfg.cnn_use_layernorm then
                [Layer.layerNorm [-3, -2, -1] layerNormEpsilon,
                 Layer.activationLayer act]
              else [])).flatten := by
  obtain ⟨hlen, act, hres, hcnn, hdt⟩ := TfCNN_init_ok h
  exact ⟨act, hres, by rw [hcnn, cnnLayers_eq_flatten]⟩

/-- Witness for C5 at the concrete configuration of the spec scenario:
input [16, 16, 3], two specs, normalization on. -/
theorem C5_witness :
    ∃ act, get_activation_fn (TfCNNConfig.mk [16, 16, 3]
        [⟨32, .square 3, .square 1⟩, ⟨64, .square 3, .square 2⟩]
        true "relu" true).cnn_activation = .ok act ∧
      (TfCNN.mk
        [Layer.inputLayer [16, 16, 3],
         Layer.conv2d 32 (.square 3) (.square 1) Padding.same true none,
         Layer.layerNorm [-3, -2, -1] layerNormEpsilon,
         Layer.activationLayer Act.relu,
         Layer.conv2d 64 (.square 3) (.square 2) Padding.same true none,
         Layer.layerNorm [-3, -2, -1] layerNormEpsilon,
         Layer.activationLayer Act.relu]
        DType.float32).cnn =
        Layer.inputLayer (TfCNNConfig.mk [16, 16, 3]
            [⟨32, .square 3, .square 1⟩, ⟨64, .square 3, .square 2⟩]
            true "relu" true).input_dims ::
          ((TfCNNConfig.mk [16, 16, 3]
            [⟨32, .square 3, .square 1⟩, ⟨64, .square 3, .square 2⟩]
            true "relu" true).cnn_filter_specifiers.map fun s =>
            Layer.conv2d s.num_filters s.kernel_size s.strides Padding.same
                true
                (if (TfCNNConfig.mk [16, 16, 3]
                  [⟨32, .square 3, .square 1⟩, ⟨64, .square 3, .square 2⟩]
                  true "relu" true).cnn_use_layernorm then none else some act) ::
              (if (TfCNNConfig.mk [16, 16, 3]
                  [⟨32, .square 3, .square 1⟩, ⟨64, .square 3, .square 2⟩]
                  true "relu" true).cnn_use_layernorm then
                [Layer.layerNorm [-3, -2, -1] layerNormEpsilon,
                 Layer.activationLayer act]
              else [])).flatten :=
  C5_cnn_structure _ _ (by rfl)

/-- C6: a `TfMLP` built from an empty hidden-width list and a non-None
`output_dim` has exactly one Dense layer, of size `output_dim`, carrying the
resolved output activation inline and the configured bias flag. -/
theorem C6_mlp_empty_hidden_single_layer (cfg : TfMLPConfig) (m : TfMLP)
    (od : Nat)
    (hempty : cfg.hidden_layer_dims = [])
    (hout : cfg.output_dim = some od)
    (h : TfMLP.init cfg = .ok m) :
    ∃ oact, get_activation_fn cfg.output_activation = .ok oact ∧
      m.network = [Layer.inputLayer [cfg.input_dim],
        Layer.dense od (some oact) cfg.use_bias] ∧
      denseLayers m.network = [Layer.dense od (some oact) cfg.use_bias] := by
  obtain ⟨hpos, hact, hres, hcase⟩ := TfMLP_init_ok h
  rcases hcase with ⟨hout2, hnet⟩ | ⟨od2, oact, hout2, hres2, hnet⟩
  · rw [hout] at hout2
    exact absurd hout2 (by simp)
  · rw [hout] at hout2
    injection hout2 with hod
    subst hod
    have hnet2 : m.network = [Layer.inputLayer [cfg.input_dim],
        Layer.dense od (some oact) cfg.use_bias] := by
      rw [hnet, hempty]
      rfl
    exact ⟨oact, hres2, hnet2, by rw [hnet2]; rfl⟩

/-- Witness for C6 at input 5, no hidden layers, output 3, bias off. -/
theorem C6_witness :
    ∃ oact, get_activation_fn (TfMLPConfig.mk 5 [] false "relu" (some 3)
        "linear" false).output_activation = .ok oact ∧
      (TfMLP.mk [Layer.inputLayer [5],
        Layer.dense 3 (some Act.linear) false]).network =
        [Layer.inputLayer [(TfMLPConfig.mk 5 [] false "relu" (some 3)
            "linear" false).input_dim],
         Layer.dense 3 (some oact) false] ∧
      denseLayers (TfMLP.mk [Layer.inputLayer [5],
          Layer.dense 3 (some Act.linear) false]).network =
        [Layer.dense 3 (some oact) false] :=
  C6_mlp_empty_hidden_single_layer _ _ 3 rfl rfl (by rfl)

/-- C7: forward evaluation of every constructed `TfCNN` and
`TfCNNTranspose` hands the external network exactly the input tensor cast
to float32, and that tensor has dtype float32 whatever the dtype supplied
by the caller was. -/
theorem C7_conv_stacks_cast_to_float32
    (appC appT : List Layer → Tensor → Tensor)
    (cfgC : TfCNNConfig) (mC : TfCNN)
    (cfgT : TfCNNTransposeConfig) (mT : TfCNNTranspose)
    (t : Tensor)
    (hC : TfCNN.init cfgC = .ok mC)
    (hT : TfCNNTranspose.init cfgT = .ok mT) :
    TfCNN.call appC mC t = appC mC.cnn (tf_cast t DType.float32) ∧
    TfCNNTranspose.call appT mT t =
      appT mT.cnn_transpose (tf_cast t DType.float32) ∧
    (tf_cast t DType.float32).dtype = DType.float32 := by
  obtain ⟨-, -, -, -, hdtC⟩ := TfCNN_init_ok hC
  obtain ⟨-, -, -, -, hdtT⟩ := TfCNNTranspose_init_ok hT
  refine ⟨?_, ?_, rfl⟩
  · rw [TfCNN.call, hdtC]
  · rw [TfCNNTranspose.call, hdtT]

/-- Witness for C7: one-spec conv stacks evaluated on an int32 input. -/
theorem C7_witness :
    TfCNN.call (fun _ t => t)
        (TfCNN.mk
          [Layer.inputLayer [16, 16, 3],
           Layer.conv2d 32 (.square 3) (.square 1) Padding.same true
             (some Act.relu)]
          DType.float32)
        (Tensor.mk DType.int32 [16, 16, 3]) =
      (fun _ t => t : List Layer → Tensor → Tensor)
        (TfCNN.mk
          [Layer.inputLayer [16, 16, 3],
           Layer.conv2d 32 (.square 3) (.square 1) Padding.same true
             (some Act.relu)]
          DType.float32).cnn
        (tf_cast (Tensor.mk DType.int32 [16, 16, 3]) DType.float32) ∧
    TfCNNTranspose.call (fun _ t => t)
        (TfCNNTranspose.mk
          [Layer.inputLayer [4, 4, 8],
           Layer.conv2dTranspose 3 (.square 4) (.square 2) Padding.same true
             none]
          DType.float32)
        (Tensor.mk DType.int32 [16, 16, 3]) =
      (fun _ t => t : List Layer → Tensor → Tensor)
        (TfCNNTranspose.mk
          [Layer.inputLayer [4, 4, 8],
           Layer.conv2dTranspose 3 (.square 4) (.square 2) Padding.same true
             none]
          DType.float32).cnn_transpose
        (tf_cast (Tensor.mk DType.int32 [16, 16, 3]) DType.float32) ∧
    (tf_cast (Tensor.mk DType.int32 [16, 16, 3]) DType.float32).dtype =
      DType.float32 :=
  C7_conv_stacks_cast_to_float32 _ _
    (TfCNNConfig.mk [16, 16, 3] [⟨32, .square 3, .square 1⟩] false "relu" true)
    _
    (TfCNNTransposeConfig.mk [4, 4, 8] [⟨3, .square 4, .square 2⟩] "relu"
      false true)
    _ _ (by rfl) (by rfl)

/-- C8: construction fails fast with a configuration error, returning no
model, when `TfMLP` is given `input_dim <= 0`, when `TfCNN` or
`TfCNNTranspose` is given an `input_dims` whose length is not 3, or when
the activation resolver rejects the supplied activation name; and the
resolver does reject unrecognized names. -/
theorem C8_construction_fails_fast :
    (∀ cfg : TfMLPConfig, ¬ 0 < cfg.input_dim →
      TfMLP.init cfg = .error ConfigError.assertionFailed) ∧
    (∀ cfg : TfCNNConfig, cfg.input_dims.length ≠ 3 →
      TfCNN.init cfg = .error ConfigError.assertionFailed) ∧
    (∀ cfg : TfCNNTransposeConfig, cfg.input_dims.length ≠ 3 →
      TfCNNTranspose.init cfg = .error ConfigError.assertionFailed) ∧
    (∀ (cfg : TfMLPConfig) (e : ConfigError), 0 < cfg.input_dim →
      get_activation_fn cfg.hidden_layer_activation = .error e →
      TfMLP.init cfg = .error e) ∧
    (∀ (cfg : TfCNNConfig) (e : ConfigError), cfg.input_dims.length = 3 →
      get_activation_fn cfg.cnn_activation = .error e →
      TfCNN.init cfg = .error e) ∧
    (∀ (cfg : TfCNNTransposeConfig) (e : ConfigError),
      cfg.input_dims.length = 3 →
      get_activation_fn cfg.cnn_transpose_activation = .error e →
      TfCNNTranspose.init cfg = .error e) ∧
    get_activation_fn "mish" = .error ConfigError.unknownActivation := by
  refine ⟨?_, ?_, ?_, ?_, ?_, ?_, rfl⟩
  · intro cfg hneg
    rw [TfMLP.init, if_neg hneg]
  · intro cfg hne
    rw [TfCNN.init, if_neg hne]
  · intro cfg hne
    rw [TfCNNTranspose.init, if_neg hne]
  · intro cfg e hpos hres
    rw [TfMLP.init, if_pos hpos, hres]
  · intro cfg e hlen hres
    rw [TfCNN.init, if_pos hlen, hres]
  · intro cfg e hlen hres
    rw [TfCNNTranspose.init, if_pos hlen, hres]

/-- Witness for C8: concrete invalid configurations for every branch. -/
theorem C8_witness :
    TfMLP.init (TfMLPConfig.mk 0 [4] false "relu" none "linear" true) =
      .error ConfigError.assertionFailed ∧
    TfCNN.init (TfCNNConfig.mk [16, 16] [] false "relu" true) =
      .error ConfigError.assertionFailed ∧
    TfCNNTranspose.init (TfCNNTransposeConfig.mk [4, 4, 8, 1] [] "relu"
        false true) =
      .error ConfigError.assertionFailed ∧
    TfMLP.init (TfMLPConfig.mk 4 [4] false "mish" none "linear" true) =
      .error ConfigError.unknownActivation ∧
    TfCNN.init (TfCNNConfig.mk [16, 16, 3] [] false "mish" true) =
      .error ConfigError.unknownActivation ∧
    TfCNNTranspose.init (TfCNNTransposeConfig.mk [4, 4, 8] [] "mish"
        false true) =
      .error ConfigError.unknownActivation :=
  ⟨C8_construction_fails_fast.1 _ (by decide),
   C8_construction_fails_fast.2.1 _ (by decide),
   C8_construction_fails_fast.2.2.1 _ (by decide),
   C8_construction_fails_fast.2.2.2.1 _ _ (by decide) (by rfl),
   C8_construction_fails_fast.2.2.2.2.1 _ _ (by decide) (by rfl),
   C8_construction_fails_fast.2.2.2.2.2.1 _ _ (by decide) (by rfl)⟩

/-- C9: a `TfMLP` built from a positive input dimension, an empty
hidden-width list and a None `output_dim` (with a resolvable hidden
activation) is constructed without any configuration error, and its
pipeline holds the input layer and nothing else: zero Dense, zero
normalization and zero Activation steps. -/
theorem C9_mlp_degenerate_empty_pipeline (cfg : TfMLPConfig) (a : Act)
    (hpos : 0 < cfg.input_dim)
    (hempty : cfg.hidden_layer_dims = [])
    (hout : cfg.output_dim = none)
    (hres : get_activation_fn cfg.hidden_layer_activation = .ok a) :
    ∃ m, TfMLP.init cfg = .ok m ∧
      m.network = [Layer.inputLayer [cfg.input_dim]] ∧
      countDense m.network = 0 ∧
      countNorm m.network = 0 ∧
      countAct m.network = 0 := by
  refine ⟨⟨[Layer.inputLayer [cfg.input_dim]]⟩, ?_, rfl, rfl, rfl, rfl⟩
  rw [TfMLP.init, if_pos hpos, hres, hout, hempty]
  rfl

/-- Witness for C9 at input 7 with the default activation "relu". -/
theorem C9_witness :
    ∃ m, TfMLP.init (TfMLPConfig.mk 7 [] false "relu" none "linear" true) =
        .ok m ∧
      m.network = [Layer.inputLayer
        [(TfMLPConfig.mk 7 [] false "relu" none "linear" true).input_dim]] ∧
      countDense m.network = 0 ∧
      countNorm m.network = 0 ∧
      countAct m.network = 0 :=
  C9_mlp_degenerate_empty_pipeline _ Act.relu (by decide) rfl rfl (by rfl)

/-- C10: forward evaluation of a `TfMLP` hands the external network the
input tensor exactly as supplied — no cast is interposed, so the network
receives a tensor identical to the input, dtype included. -/
theorem C10_mlp_call_no_cast (network_apply : List Layer → Tensor → Tensor)
    (m : TfMLP) (t : Tensor) :
    TfMLP.call network_apply m t = network_apply m.network t ∧
    ∃ u, TfMLP.call network_apply m t = network_apply m.network u ∧
      u = t ∧ u.dtype = t.dtype :=
  ⟨rfl, t, rfl, rfl, rfl⟩

end Primitives
